import Mathlib

set_option maxRecDepth 100000

/-
Verification development for the rtsp_rs repository: a shallow embedding of
the RTP packet accessors (src/rtp/packet.rs), the reorder queue
(src/rtp/queue.rs), the ring buffer (src/rtsp/buffer.rs), the authorizer
(src/rtsp/client/authorizer.rs), the streaming response parser
(src/rtsp/response.rs) and the session channel (src/rtsp/client/channel.rs),
together with theorems settling the specification claims.

Machine integers are modelled as Nat with explicit reduction modulo 2^w at
the operations where Rust wrapping semantics applies.  Rust panics (unwrap,
out-of-bounds slicing, usize underflow) are modelled by an explicit panic
outcome.  Byte buffers are List Nat, wire text is List Char (all inputs in
question are ASCII, where byte positions and char positions coincide).
-/

namespace RtspRs

/-- Result of a Rust computation that may panic or return a recoverable
error: `panic` models a Rust panic (unwrap failure, slice out of bounds,
unsigned underflow), `err` a returned `Err`, `ok` a returned `Ok`. -/
inductive Res (ε : Type) (α : Type) where
  | panic : Res ε α
  | err : ε → Res ε α
  | ok : α → Res ε α
  deriving Repr, DecidableEq

/-! ## RTP packet (src/rtp/packet.rs) -/

/-- RTP packet as in src/rtp/packet.rs: an owned byte buffer, all fields are
read through accessors.  Bytes are Nat values below 256. -/
structure Packet where
  buf : List Nat
  deriving Repr, DecidableEq

namespace Packet

/-- Length of the packet buffer (Packet::len). -/
def len (p : Packet) : Nat := p.buf.length

/-- Byte access self.buf[i]; the packets handled below always access in
bounds (guarded by Packet::new), out of range yields 0. -/
def byte (p : Packet) (i : Nat) : Nat := p.buf.getD i 0

/-- Version field: self.buf[0] >> 6. -/
def version (p : Packet) : Nat := p.byte 0 / 64

/-- Padding flag: (self.buf[0] >> 5) & 0x01 == 1. -/
def padding (p : Packet) : Bool := (p.byte 0 / 32) % 2 == 1

/-- Extension flag: (self.buf[0] >> 4) & 0x01 == 1. -/
def hasExt (p : Packet) : Bool := (p.byte 0 / 16) % 2 == 1

/-- CSRC count: self.buf[0] & 0x0F. -/
def csrc_count (p : Packet) : Nat := p.byte 0 % 16

/-- Marker flag: self.buf[1] >> 7 == 1. -/
def marker (p : Packet) : Bool := p.byte 1 / 128 == 1

/-- Payload type: self.buf[1] & 0x7F. -/
def payload_type (p : Packet) : Nat := p.byte 1 % 128

/-- Sequence number: u16::from_be_bytes([buf[2], buf[3]]). -/
def sequence_number (p : Packet) : Nat := p.byte 2 * 256 + p.byte 3

/-- Timestamp: u32::from_be_bytes([buf[4], buf[5], buf[6], buf[7]]). -/
def timestamp (p : Packet) : Nat :=
  ((p.byte 4 * 256 + p.byte 5) * 256 + p.byte 6) * 256 + p.byte 7

/-- SSRC: u32::from_be_bytes([buf[8], buf[9], buf[10], buf[11]]). -/
def ssrc (p : Packet) : Nat :=
  ((p.byte 8 * 256 + p.byte 9) * 256 + p.byte 10) * 256 + p.byte 11

/-- Data offset: CSRC_OFFSET (12) + csrc_count * 4. -/
def data_offset (p : Packet) : Nat := 12 + p.csrc_count * 4

/-- Packet::new: accepts the buffer when its length is at least 12 and at
least the data offset, otherwise Err(BufferTooShort) (modelled none). -/
def new (b : List Nat) : Option Packet :=
  let p : Packet := ⟨b⟩
  if p.len < 12 ∨ p.len < p.data_offset then none else some p

/-- Packet::data: with the padding flag set, the slice
buf[data_offset .. len - padding_len]; `none` models the Rust panic that
the slice operation (or the usize subtraction) raises when the declared
padding length does not fit. -/
def data (p : Packet) : Option (List Nat) :=
  if p.padding then
    let padding_len := p.byte (p.len - 1)
    if padding_len ≤ p.len ∧ p.data_offset ≤ p.len - padding_len then
      some ((p.buf.take (p.len - padding_len)).drop p.data_offset)
    else none
  else if p.data_offset ≤ p.len then some (p.buf.drop p.data_offset)
  else none

/-- CSRC list: one big-endian u32 per contributing source. -/
def csrc (p : Packet) : List Nat :=
  (List.range p.csrc_count).map fun i =>
    ((p.byte (12 + i * 4) * 256 + p.byte (12 + i * 4 + 1)) * 256 +
      p.byte (12 + i * 4 + 2)) * 256 + p.byte (12 + i * 4 + 3)

end Packet

/-! ## Reorder queue (src/rtp/queue.rs) -/

/-- Insertion into the heap, modelled as a list kept sorted by ascending
sequence number: the BinaryHeap of Packet with the reversed Ord of
src/rtp/packet.rs peeks the packet of least sequence number.  Order among
packets of equal sequence number is unspecified in Rust; this model keeps
arrival order. -/
def heapInsert (p : Packet) : List Packet → List Packet
  | [] => [p]
  | q :: rest =>
    if p.sequence_number < q.sequence_number then p :: q :: rest
    else q :: heapInsert p rest

/-- Reorder queue state of src/rtp/queue.rs: the heap (sorted-list model),
the capacity bound, and last_read_sn, a u16 that starts at 0 and doubles as
the not-yet-delivered sentinel. -/
structure ReorderQueue where
  queue : List Packet
  max_len : Nat
  last_read_sn : Nat
  deriving Repr, DecidableEq

namespace ReorderQueue

/-- ReorderQueue::new(max_len): empty heap, last_read_sn = 0. -/
def new (max_len : Nat) : ReorderQueue := ⟨[], max_len, 0⟩

/-- ReorderQueue::push_or_return: deliver immediately when last_read_sn is 0
or the sequence number is last_read_sn + 1 (u16 wrap-around addition),
discard when strictly below last_read_sn, otherwise insert into the heap. -/
def push_or_return (q : ReorderQueue) (p : Packet) : Option Packet × ReorderQueue :=
  if q.last_read_sn = 0 ∨ p.sequence_number = (q.last_read_sn + 1) % 65536 then
    (some p, { q with last_read_sn := p.sequence_number })
  else if p.sequence_number < q.last_read_sn then
    (none, q)
  else
    (none, { q with queue := heapInsert p q.queue })

/-- ReorderQueue::pop: release the heap minimum when it is next in line
(u16 wrap-around addition) or the heap holds at least max_len packets. -/
def pop (q : ReorderQueue) : Option Packet × ReorderQueue :=
  match q.queue with
  | [] => (none, q)
  | p :: rest =>
    if p.sequence_number = (q.last_read_sn + 1) % 65536 ∨ q.queue.length ≥ q.max_len then
      (some p, { q with queue := rest, last_read_sn := p.sequence_number })
    else (none, q)

end ReorderQueue

/-- Signed 16-bit delta of two sequence numbers as the specification words
it (RFC 3711 style): the difference modulo 2^16, reinterpreted as a signed
16-bit value.  This is the spec-side definition used to compare against the
code-side comparisons of src/rtp/queue.rs. -/
def seqDiff (a b : Nat) : Int :=
  let d := (a + 65536 - b % 65536) % 65536
  if d < 32768 then (d : Int) else (d : Int) - 65536

/-! ## Ring buffer (src/rtsp/buffer.rs) -/

/-- Error type of src/rtsp/buffer.rs. -/
inductive BufferError where
  | NotEnoughSpace
  deriving Repr, DecidableEq

/-- Ring buffer of src/rtsp/buffer.rs: a growable byte vector with a read
cursor and a write cursor and a capacity ceiling. -/
structure Buffer where
  data : List Nat
  max_capacity : Nat
  read_pos : Nat
  write_pos : Nat
  deriving Repr, DecidableEq

namespace Buffer

/-- Buffer::new(max_capacity). -/
def new (max_capacity : Nat) : Buffer := ⟨[], max_capacity, 0, 0⟩

/-- Buffer::get_read_slice: the unread bytes data[read_pos .. write_pos]. -/
def get_read_slice (b : Buffer) : List Nat :=
  (b.data.take b.write_pos).drop b.read_pos

/-- Buffer::notify_read: advance the read cursor; when it reaches the write
cursor both cursors reset to 0. -/
def notify_read (b : Buffer) (n : Nat) : Buffer :=
  let rp := b.read_pos + n
  if rp = b.write_pos then { b with read_pos := 0, write_pos := 0 }
  else { b with read_pos := rp }

/-- Buffer::get_write_slice: returns the updated buffer together with the
length of the writable slice data[write_pos ..].  In order: tail space
in-place when write_pos + n ≤ data.len(); else compaction when
n ≤ read_pos (copy_within of the unread range to offset 0); else growth to
write_pos + n when that stays within max_capacity; else NotEnoughSpace. -/
def get_write_slice (b : Buffer) (n : Nat) : Except BufferError (Buffer × Nat) :=
  if b.write_pos + n > b.data.length then
    if n ≤ b.read_pos then
      let unread := b.write_pos - b.read_pos
      let data := (b.data.drop b.read_pos).take unread ++ b.data.drop unread
      let b := { b with data := data, write_pos := unread, read_pos := 0 }
      .ok (b, b.data.length - b.write_pos)
    else if b.write_pos + n ≤ b.max_capacity then
      let b := { b with data := b.data ++ List.replicate (b.write_pos + n - b.data.length) 0 }
      .ok (b, b.data.length - b.write_pos)
    else
      .error BufferError.NotEnoughSpace
  else
    .ok (b, b.data.length - b.write_pos)

/-- Buffer::notify_write: advance the write cursor. -/
def notify_write (b : Buffer) (n : Nat) : Buffer :=
  { b with write_pos := b.write_pos + n }

/-- Writing bytes through the slice returned by get_write_slice: the caller
copies into data[write_pos ..] and then calls notify_write. -/
def fill (b : Buffer) (bytes : List Nat) : Buffer :=
  { b with data := b.data.take b.write_pos ++ bytes ++ b.data.drop (b.write_pos + bytes.length) }

/-- Invariant of src/rtsp/buffer.rs stated in the specification. -/
def Wf (b : Buffer) : Prop :=
  b.read_pos ≤ b.write_pos ∧ b.write_pos ≤ b.data.length ∧ b.data.length ≤ b.max_capacity

instance (b : Buffer) : Decidable b.Wf := by
  unfold Wf; infer_instance

end Buffer

/-! ## MD5 (model of the md5 crate used by src/rtsp/client/authorizer.rs,
following RFC 1321) and base64 (model of the base64 crate, standard
alphabet with padding) -/

/-- Modulus of 32-bit arithmetic. -/
def M32 : Nat := 4294967296

/-- Bitwise complement on 32 bits. -/
def bnot32 (x : Nat) : Nat := 4294967295 - x % M32

/-- Left rotation of a 32-bit value by s bits (0 < s < 32): the shifted-out
high bits reappear at the bottom; the two parts occupy disjoint bit ranges
so addition equals bitwise or. -/
def rotl32 (x s : Nat) : Nat := (x % M32) * 2 ^ s % M32 + x % M32 / 2 ^ (32 - s)

/-- Per-round shift amounts of MD5. -/
def md5S : List Nat :=
  [7, 12, 17, 22, 7, 12, 17, 22, 7, 12, 17, 22, 7, 12, 17, 22,
   5, 9, 14, 20, 5, 9, 14, 20, 5, 9, 14, 20, 5, 9, 14, 20,
   4, 11, 16, 23, 4, 11, 16, 23, 4, 11, 16, 23, 4, 11, 16, 23,
   6, 10, 15, 21, 6, 10, 15, 21, 6, 10, 15, 21, 6, 10, 15, 21]

/-- Sine-derived round constants of MD5. -/
def md5K : List Nat :=
  [0xd76aa478, 0xe8c7b756, 0x242070db, 0xc1bdceee,
   0xf57c0faf, 0x4787c62a, 0xa8304613, 0xfd469501,
   0x698098d8, 0x8b44f7af, 0xffff5bb1, 0x895cd7be,
   0x6b901122, 0xfd987193, 0xa679438e, 0x49b40821,
   0xf61e2562, 0xc040b340, 0x265e5a51, 0xe9b6c7aa,
   0xd62f105d, 0x02441453, 0xd8a1e681, 0xe7d3fbc8,
   0x21e1cde6, 0xc33707d6, 0xf4d50d87, 0x455a14ed,
   0xa9e3e905, 0xfcefa3f8, 0x676f02d9, 0x8d2a4c8a,
   0xfffa3942, 0x8771f681, 0x6d9d6122, 0xfde5380c,
   0xa4beea44, 0x4bdecfa9, 0xf6bb4b60, 0xbebfbc70,
   0x289b7ec6, 0xeaa127fa, 0xd4ef3085, 0x04881d05,
   0xd9d4d039, 0xe6db99e5, 0x1fa27cf8, 0xc4ac5665,
   0xf4292244, 0x432aff97, 0xab9423a7, 0xfc93a039,
   0x655b59c3, 0x8f0ccc92, 0xffeff47d, 0x85845dd1,
   0x6fa87e4f, 0xfe2ce6e0, 0xa3014314, 0x4e0811a1,
   0xf7537e82, 0xbd3af235, 0x2ad7d2bb, 0xeb86d391]

/-- Running MD5 state of the four 32-bit registers. -/
structure MD5State where
  a : Nat
  b : Nat
  c : Nat
  d : Nat
  deriving Repr, DecidableEq

/-- Single MD5 round i over message words M. -/
def md5Step (M : List Nat) (st : MD5State) (i : Nat) : MD5State :=
  let f :=
    if i < 16 then Nat.lor (Nat.land st.b st.c) (Nat.land (bnot32 st.b) st.d)
    else if i < 32 then Nat.lor (Nat.land st.d st.b) (Nat.land (bnot32 st.d) st.c)
    else if i < 48 then Nat.xor (Nat.xor st.b st.c) st.d
    else Nat.xor st.c (Nat.lor st.b (bnot32 st.d))
  let g :=
    if i < 16 then i
    else if i < 32 then (5 * i + 1) % 16
    else if i < 48 then (3 * i + 5) % 16
    else 7 * i % 16
  let f := (f + st.a + md5K.getD i 0 + M.getD g 0) % M32
  ⟨st.d, (st.b + rotl32 f (md5S.getD i 0)) % M32, st.b, st.c⟩

/-- Processing of one 64-byte chunk: little-endian words, 64 rounds, then
wrapping addition onto the incoming state. -/
def md5Chunk (st : MD5State) (chunk : List Nat) : MD5State :=
  let M := (List.range 16).map fun j =>
    chunk.getD (4 * j) 0 + chunk.getD (4 * j + 1) 0 * 256 +
      chunk.getD (4 * j + 2) 0 * 65536 + chunk.getD (4 * j + 3) 0 * 16777216
  let r := (List.range 64).foldl (md5Step M) st
  ⟨(st.a + r.a) % M32, (st.b + r.b) % M32, (st.c + r.c) % M32, (st.d + r.d) % M32⟩

/-- MD5 padding: a 0x80 byte, zeros up to 56 mod 64, then the bit length as
a little-endian u64. -/
def md5Pad (msg : List Nat) : List Nat :=
  msg ++ [128] ++ List.replicate ((119 - msg.length % 64) % 64) 0 ++
    (List.range 8).map fun i => msg.length * 8 % 2 ^ 64 / 2 ^ (8 * i) % 256

/-- Lowercase hexadecimal digit. -/
def hexDigit (n : Nat) : Char :=
  if n < 10 then Char.ofNat (48 + n) else Char.ofNat (87 + n)

/-- Two lowercase hex characters of a byte. -/
def byteHex (n : Nat) : List Char := [hexDigit (n / 16 % 16), hexDigit (n % 16)]

/-- MD5 digest of a byte sequence, as the 16 output bytes (registers in
little-endian byte order). -/
def md5Bytes (msg : List Nat) : List Nat :=
  let padded := md5Pad msg
  let st := (List.range (padded.length / 64)).foldl
    (fun st i => md5Chunk st ((padded.drop (64 * i)).take 64))
    ⟨0x67452301, 0xefcdab89, 0x98badcfe, 0x10325476⟩
  [st.a, st.b, st.c, st.d].flatMap fun w => (List.range 4).map fun i => w / 2 ^ (8 * i) % 256

/-- Bytes of an ASCII string; all hashed and encoded strings in this
development are ASCII, where UTF-8 bytes and code points coincide. -/
def asciiBytes (s : String) : List Nat := s.data.map Char.toNat

/-- MD5 digest rendered as 32 lowercase hex characters, the format produced
by format!("{:x}", md5::compute(..)) in src/rtsp/client/authorizer.rs. -/
def md5hex (s : String) : String :=
  String.mk ((md5Bytes (asciiBytes s)).flatMap byteHex)

/-- Formatting {:08x} of a u32: eight lowercase hex digits. -/
def u32hex8 (n : Nat) : String :=
  String.mk (((List.range 8).reverse).map fun i => hexDigit (n / 16 ^ i % 16))

/-- Standard base64 alphabet. -/
def b64alphabet : List Char :=
  "ABCDEFGHIJKLMNOPQRSTUVWXYZabcdefghijklmnopqrstuvwxyz0123456789+/".data

/-- Character of a 6-bit group. -/
def b64char (n : Nat) : Char := b64alphabet.getD n 'A'

/-- Base64 encoding with padding over 3-byte groups. -/
def b64encode : List Nat → List Char
  | [] => []
  | [a] => [b64char (a / 4), b64char (a % 4 * 16), '=', '=']
  | [a, b] => [b64char (a / 4), b64char (a % 4 * 16 + b / 16), b64char (b % 16 * 4), '=']
  | a :: b :: c :: rest =>
    b64char (a / 4) :: b64char (a % 4 * 16 + b / 16) ::
      b64char (b % 16 * 4 + c / 64) :: b64char (c % 64) :: b64encode rest

/-- BASE64_STANDARD.encode over an ASCII string. -/
def base64encode (s : String) : String := String.mk (b64encode (asciiBytes s))

/-! ## String helpers shared by the parser and the authorizer -/

/-- ASCII whitespace in the sense of u8::is_ascii_whitespace. -/
def isAsciiWs (c : Char) : Bool :=
  c = ' ' ∨ c = '\t' ∨ c = '\n' ∨ c = '\x0c' ∨ c = '\r'

/-- Whitespace in the sense of char::is_whitespace (Unicode White_Space). -/
def isUniWs (c : Char) : Bool :=
  isAsciiWs c ∨ c = '\x0b' ∨ c.toNat = 0x85 ∨ c.toNat = 0xa0 ∨ c.toNat = 0x1680 ∨
    (0x2000 ≤ c.toNat ∧ c.toNat ≤ 0x200a) ∨ c.toNat = 0x2028 ∨ c.toNat = 0x2029 ∨
    c.toNat = 0x202f ∨ c.toNat = 0x205f ∨ c.toNat = 0x3000

/-- ASCII graphic in the sense of u8::is_ascii_graphic: range 0x21 to 0x7e. -/
def isAsciiGraphic (c : Char) : Bool := 0x21 ≤ c.toNat ∧ c.toNat ≤ 0x7e

/-- Model of splitn(2, sep): the part before the first separator and the
part after it; none when the separator does not occur (the second call to
the iterator yields None there, while the first part is the whole input). -/
def splitFirst (sep : Char) : List Char → Option (List Char × List Char)
  | [] => none
  | c :: rest =>
    if c = sep then some ([], rest)
    else (splitFirst sep rest).map fun pr => (c :: pr.1, pr.2)

/-- Model of split(sep) collecting every part; the empty input yields one
empty part, as in Rust. -/
def splitAll (sep : Char) : List Char → List (List Char)
  | [] => [[]]
  | c :: rest =>
    let r := splitAll sep rest
    if c = sep then [] :: r else (c :: r.headD []) :: r.tail

/-- Model of str::trim. -/
def trimChars (l : List Char) : List Char :=
  ((l.dropWhile isUniWs).reverse.dropWhile isUniWs).reverse

/-- Model of str::trim_matches with a quote character: all leading and all
trailing double quotes are removed. -/
def trimQuotes (l : List Char) : List Char :=
  (((l.dropWhile (· = '"')).reverse).dropWhile (· = '"')).reverse

/-- Digit run to number; enabler for the integer parsers. -/
def digitsVal (l : List Char) : Nat :=
  l.foldl (fun acc c => acc * 10 + (c.toNat - 48)) 0

/-- Model of str::parse for an unsigned integer type with bound `bound`
(exclusive): an optional leading plus sign, then one or more ASCII digits,
rejecting overflow. -/
def parseUIntLt (bound : Nat) (l : List Char) : Option Nat :=
  let l := match l with
    | '+' :: rest => rest
    | other => other
  if l ≠ [] ∧ l.all Char.isDigit ∧ digitsVal l < bound then some (digitsVal l) else none

/-- Rust u8::from_str. -/
def parseU8 (l : List Char) : Option Nat := parseUIntLt 256 l

/-- Rust u32::from_str. -/
def parseU32 (l : List Char) : Option Nat := parseUIntLt 4294967296 l

/-- Rust usize::from_str (64-bit). -/
def parseUsize (l : List Char) : Option Nat := parseUIntLt 18446744073709551616 l

/-- ASCII lowercasing of one character. -/
def toLowerChar (c : Char) : Char :=
  if 'A' ≤ c ∧ c ≤ 'Z' then Char.ofNat (c.toNat + 32) else c

/-- Case-insensitive ASCII equality with a lowercase literal, the model of
str::eq_ignore_ascii_case. -/
def eqIgnoreCase (l : List Char) (lit : String) : Bool :=
  l.map toLowerChar = lit.data

/-! ## Authorizer (src/rtsp/client/authorizer.rs) -/

/-- Error type of src/rtsp/client/authorizer.rs. -/
inductive AuthorizerError where
  | InvalidHeader
  | UnknownType
  deriving Repr, DecidableEq

/-- Basic authorizer: the precomputed header value. -/
structure Basic where
  auth : String
  deriving Repr, DecidableEq

/-- Basic::new: "Basic " plus base64 of user:pass. -/
def Basic.new (username password : String) : Basic :=
  ⟨"Basic " ++ base64encode (username ++ ":" ++ password)⟩

/-- Digest authorizer state.  The source field `opaque` is renamed `opaq`
(Lean keyword); `rng` models the OS-seeded StdRng as the stream of u32
values it will yield, empty meaning an unknown stream whose next draw is
taken as 0. -/
structure Digest where
  realm : String
  nonce : String
  opaq : Option String
  username : String
  password : String
  nc : Nat
  rng : List Nat
  deriving Repr, DecidableEq

/-- Digest::new: nc starts at 0. -/
def Digest.new (realm nonce : String) (opaq : Option String) (username password : String) : Digest :=
  ⟨realm, nonce, opaq, username, password, 0, []⟩

/-- Fields interpolated into the Digest Authorization header format string
of Digest::write. -/
structure DigestHeader where
  username : String
  realm : String
  nonce : String
  uri : String
  response : String
  cnonce : String
  nc : String
  qop : String
  deriving Repr, DecidableEq

/-- Rendering of the format string of Digest::write. -/
def DigestHeader.render (h : DigestHeader) : String :=
  "Digest username=\"" ++ h.username ++ "\", realm=\"" ++ h.realm ++
    "\", nonce=\"" ++ h.nonce ++ "\", uri=\"" ++ h.uri ++
    "\", response=\"" ++ h.response ++ "\", cnonce=\"" ++ h.cnonce ++
    "\", nc=" ++ h.nc ++ ", qop=auth"

/-- Digest::write: uses the current nc, then increments it (u32 wrap);
draws a random cnonce; the response field is the hex MD5 of
username:realm:password; uri is Url::path() of the request URL. -/
def Digest.write (d : Digest) (uriPath : String) : DigestHeader × Digest :=
  let nc := d.nc
  let d2 := { d with nc := (d.nc + 1) % M32, rng := d.rng.drop 1 }
  let cnonce := d.rng.headD 0 % M32
  let response := md5hex (d.username ++ ":" ++ d.realm ++ ":" ++ d.password)
  (⟨d.username, d.realm, d.nonce, uriPath, response, u32hex8 cnonce, u32hex8 nc, "auth"⟩, d2)

/-- Authorizer sum type of src/rtsp/client/authorizer.rs; the variant None
is rendered noAuth. -/
inductive Authorizer where
  | basic : Basic → Authorizer
  | digest : Digest → Authorizer
  | noAuth : Authorizer
  deriving Repr, DecidableEq

/-- Authorization header value that Authorizer::write serialises into the
request (none for the None variant, which emits no header), with the
updated authorizer state. -/
def Authorizer.emit (a : Authorizer) (uriPath : String) : Option String × Authorizer :=
  match a with
  | .basic b => (some b.auth, .basic b)
  | .digest d =>
    let r := d.write uriPath
    (some r.1.render, .digest r.2)
  | .noAuth => (none, .noAuth)

/-- Accumulator step of the Digest key-value scan in Authorizer::new: each
comma-separated item is split at its first equals sign (missing value is
InvalidHeader), key trimmed, value trimmed and stripped of quotes; realm,
nonce and opaque assignments are recorded, other keys ignored. -/
def digestKvStep (acc : Except AuthorizerError (Option String × Option String × Option String))
    (item : List Char) : Except AuthorizerError (Option String × Option String × Option String) :=
  acc.bind fun st =>
    match splitFirst '=' item with
    | none => .error .InvalidHeader
    | some (key, value) =>
      let key := trimChars key
      let value := trimQuotes (trimChars value)
      if key = "realm".data then .ok (some (String.mk value), st.2.1, st.2.2)
      else if key = "nonce".data then .ok (st.1, some (String.mk value), st.2.2)
      else if key = "opaque".data then .ok (st.1, st.2.1, some (String.mk value))
      else .ok st

/-- Authorizer::new: split the WWW-Authenticate value at the first space
into scheme and data; Basic ignores the data; Digest scans the key-value
list and then calls realm.unwrap() and nonce.unwrap(), a panic when either
is missing. -/
def Authorizer.new (user pass : String) (www_auth : String) : Res AuthorizerError Authorizer :=
  match splitFirst ' ' www_auth.data with
  | none => .err .InvalidHeader
  | some (auth_type, auth_data) =>
    if auth_type = "Basic".data then .ok (.basic (Basic.new user pass))
    else if auth_type = "Digest".data then
      match (splitAll ',' auth_data).foldl digestKvStep (.ok (none, none, none)) with
      | .error e => .err e
      | .ok (realm, nonce, opq) =>
        match realm, nonce with
        | some r, some n => .ok (.digest (Digest.new r n opq user pass))
        | _, _ => .panic
    else .err .UnknownType

/-! ## RTSP status (src/rtsp/protocol/status.rs) -/

/-- Status codes of the closed RTSP status enumeration; the enum is
modelled by its numeric code together with membership in this list. -/
def validStatusCodes : List Nat :=
  [100, 200, 201, 250, 300, 301, 302, 303, 304, 305,
   400, 401, 402, 403, 404, 405, 406, 407, 408, 410, 411, 412, 413, 414, 415,
   451, 452, 453, 454, 455, 456, 457, 458, 459, 460, 461, 462,
   500, 501, 502, 503, 504, 505, 551]

/-- RTSP status, the numeric code of one of the enum variants. -/
structure Status where
  code : Nat
  deriving Repr, DecidableEq

/-- TryFrom u32 for Status: the listed codes succeed, anything else is
InvalidStatusError. -/
def Status.tryFrom (n : Nat) : Option Status :=
  if n ∈ validStatusCodes then some ⟨n⟩ else none

/-- Variant Status::OK. -/
def Status.OK : Status := ⟨200⟩

/-- Variant Status::Unauthorized. -/
def Status.Unauthorized : Status := ⟨401⟩

/-! ## Streaming response parser (src/rtsp/response.rs) -/

/-- Parser states of src/rtsp/response.rs. -/
inductive ParserState where
  | ExpectProtocol
  | ExpectStatus
  | ExpectHeader
  | ExpectBody
  | Done
  deriving Repr, DecidableEq

/-- Parse errors of src/rtsp/response.rs; the payloads of the wrapped
sub-errors are not tracked. -/
inductive ParseError where
  | MissingEndOfLine
  | MissingSpace
  | ParseHeader
  | ParseMethod
  | ParseProtocol
  | ParseStatus
  | ParseContentLength
  deriving Repr, DecidableEq

/-- Items yielded by the parser. -/
inductive ParseItem where
  | protocol (major minor : Nat)
  | status (s : Status)
  | header (name value : List Char)
  | body (b : List Char)
  deriving Repr, DecidableEq

/-- Parser state record of src/rtsp/response.rs. -/
structure Parser where
  state : ParserState
  pos : Nat
  header_length : Nat
  content_length : Nat
  deriving Repr, DecidableEq

/-- Characters of the current line: everything up to the first CRLF, or the
whole remainder when no CRLF occurs (split("\r\n").next() always yields a
first piece, so the MissingEndOfLine error is in fact unreachable). -/
def takeLine : List Char → List Char
  | [] => []
  | '\r' :: '\n' :: _ => []
  | c :: rest => c :: takeLine rest

/-- Protocol token parse (src/rtsp/protocol/protocol.rs): the token must
start with RTSP before a slash, then a version major.minor of u8 fields. -/
def protocolFromStr (tok : List Char) : Except ParseError (Nat × Nat) :=
  match splitFirst '/' tok with
  | none => .error .ParseProtocol
  | some (name, afterSlash) =>
    if name ≠ "RTSP".data then .error .ParseProtocol
    else
      let verPart := ((splitFirst '/' afterSlash).map Prod.fst).getD afterSlash
      match splitFirst '.' verPart with
      | none => .error .ParseProtocol
      | some (majS, afterDot) =>
        let minS := ((splitFirst '.' afterDot).map Prod.fst).getD afterDot
        match parseU8 majS, parseU8 minS with
        | some a, some b => .ok (a, b)
        | _, _ => .error .ParseProtocol

/-- Status token parse (src/rtsp/protocol/status.rs FromStr): u32 parse
followed by TryFrom. -/
def statusFromStr (tok : List Char) : Except ParseError Status :=
  match parseU32 tok with
  | none => .error .ParseStatus
  | some n =>
    match Status.tryFrom n with
    | none => .error .ParseStatus
    | some s => .ok s

/-- Header parse (src/http/header.rs TryFrom): name before the first colon,
nonempty and alphanumeric or dash or underscore; value after the colon, all
ASCII graphic or ASCII whitespace, then trimmed. -/
def headerTryFrom (line : List Char) : Except ParseError (List Char × List Char) :=
  match splitFirst ':' line with
  | none => .error .ParseHeader
  | some (name, value) =>
    if name ≠ [] ∧ name.all (fun c => c.isAlphanum ∨ c = '-' ∨ c = '_') then
      if value.all (fun c => isAsciiGraphic c ∨ isAsciiWs c) then
        .ok (name, trimChars value)
      else .error .ParseHeader
    else .error .ParseHeader

namespace Parser

/-- Parser::new. -/
def new : Parser := ⟨.ExpectProtocol, 0, 0, 0⟩

/-- Parser::get_next_line: slices data[pos ..] (a panic when pos exceeds
the input length), takes the piece before the first CRLF and advances pos
by its length plus two, also when no CRLF is present. -/
def get_next_line (p : Parser) (data : List Char) : Res ParseError (Parser × List Char) :=
  if p.pos > data.length then .panic
  else
    let line := takeLine (data.drop p.pos)
    .ok ({ p with pos := p.pos + line.length + 2 }, line)

/-- Parser::get_next_token: first whitespace-separated token of the current
line (MissingSpace when the line has none); advances pos by the token
length, plus one for the separating space when the line continues. -/
def get_next_token (p : Parser) (data : List Char) : Res ParseError (Parser × List Char) :=
  if p.pos > data.length then .panic
  else
    let line := takeLine (data.drop p.pos)
    let afterWs := line.dropWhile isUniWs
    if afterWs = [] then .err .MissingSpace
    else
      let token := afterWs.takeWhile fun c => ¬ isUniWs c
      let p := { p with pos := p.pos + token.length }
      let p := if token.length < line.length then { p with pos := p.pos + 1 } else p
      .ok (p, token)

/-- Parser::discard_line: like get_next_line with the line dropped. -/
def discard_line (p : Parser) (data : List Char) : Res ParseError Parser :=
  if p.pos > data.length then .panic
  else
    let line := takeLine (data.drop p.pos)
    .ok { p with pos := p.pos + line.length + 2 }

/-- Parser::parse_body: slices data[pos ..] (panic when pos exceeds the
length); when the remainder covers content_length, consume and yield the
body, otherwise yield nothing and keep the state for a later retry. -/
def parse_body (p : Parser) (data : List Char) : Res ParseError (Parser × Option ParseItem) :=
  if p.pos > data.length then .panic
  else
    let rem := data.drop p.pos
    if rem.length ≥ p.content_length then
      .ok ({ p with pos := p.pos + p.content_length, state := .Done },
        some (.body (rem.take p.content_length)))
    else .ok (p, none)

/-- Parser::parse_protocol. -/
def parse_protocol (p : Parser) (data : List Char) : Res ParseError (Parser × Option ParseItem) :=
  match p.get_next_token data with
  | .panic => .panic
  | .err e => .err e
  | .ok (p, token) =>
    match protocolFromStr token with
    | .error e => .err e
    | .ok v => .ok ({ p with state := .ExpectStatus }, some (.protocol v.1 v.2))

/-- Parser::parse_status: status token, then the rest of the line (the
reason phrase) is discarded. -/
def parse_status (p : Parser) (data : List Char) : Res ParseError (Parser × Option ParseItem) :=
  match p.get_next_token data with
  | .panic => .panic
  | .err e => .err e
  | .ok (p, token) =>
    match statusFromStr token with
    | .error e => .err e
    | .ok s =>
      match p.discard_line data with
      | .panic => .panic
      | .err e => .err e
      | .ok p => .ok ({ p with state := .ExpectHeader }, some (.status s))

/-- Parser::parse_header_field: the empty line switches to the body (or to
Done when no Content-Length was seen), records header_length, and falls
through into parse_body; a header line is parsed and a Content-Length value
is intercepted into the parser state. -/
def parse_header_field (p : Parser) (data : List Char) : Res ParseError (Parser × Option ParseItem) :=
  match p.get_next_line data with
  | .panic => .panic
  | .err e => .err e
  | .ok (p, line) =>
    if line = [] then
      let p := if p.content_length > 0 then { p with state := .ExpectBody }
        else { p with state := .Done }
      let p := { p with header_length := p.pos }
      p.parse_body data
    else
      match headerTryFrom line with
      | .error e => .err e
      | .ok (name, value) =>
        if eqIgnoreCase name "content-length" then
          match parseUsize value with
          | none => .err .ParseContentLength
          | some n => .ok ({ p with content_length := n }, some (.header name value))
        else .ok (p, some (.header name value))

/-- Parser::parse_next: dispatch on the state. -/
def parse_next (p : Parser) (data : List Char) : Res ParseError (Parser × Option ParseItem) :=
  match p.state with
  | .ExpectProtocol => p.parse_protocol data
  | .ExpectStatus => p.parse_status data
  | .ExpectHeader => p.parse_header_field data
  | .ExpectBody => p.parse_body data
  | .Done => .ok (p, none)

/-- Parser::is_done. -/
def is_done (p : Parser) : Bool := p.state == .Done

/-- Parser::missing_bytes: bytes still required once the header section is
complete (header_length set), none before that. -/
def missing_bytes (p : Parser) : Option Nat :=
  if p.header_length > 0 then some (p.header_length + p.content_length - p.pos) else none

/-- Parser::parsed_bytes. -/
def parsed_bytes (p : Parser) : Nat := p.pos

end Parser

/-- Iterated parse_next collecting the yielded items, stopping at the first
None; harness used to state claims over repeated parser calls. -/
def parseSteps : Nat → Parser → List Char → Res ParseError (Parser × List ParseItem)
  | 0, p, _ => .ok (p, [])
  | n + 1, p, data =>
    match p.parse_next data with
    | .panic => .panic
    | .err e => .err e
    | .ok (p, none) => .ok (p, [])
    | .ok (p, some it) =>
      match parseSteps n p data with
      | .panic => .panic
      | .err e => .err e
      | .ok (p2, its) => .ok (p2, it :: its)

/-! ## Session channel (src/rtsp/client/channel.rs and
src/rtsp/client/command.rs) -/

/-- Command-level error type of src/rtsp/client/command.rs (the ParseSdp
payload is not tracked). -/
inductive CommandError where
  | ParseSdp
  | UnexpectedStatus (code : Nat)
  | Unauthorized
  | Cancelled
  | BadResponse
  | Unknown
  deriving Repr, DecidableEq

/-- Channel-level error type of src/rtsp/client/channel.rs. -/
inductive ChannelError where
  | Io
  | InvalidDnsName
  | ParseResponse (e : ParseError)
  | UnexpectedStatus (code : Nat)
  | Encoding
  | HeaderTooLong
  | RequestTooLong
  | BufferSpace
  | IncompleteResponse
  | BadResponse
  | InvalidCSeq
  | InvalidAuthorization (e : AuthorizerError)
  | Unauthorized
  deriving Repr, DecidableEq

/-- From Error for CommandError: UnexpectedStatus, Unauthorized and
BadResponse map across, everything else becomes Unknown. -/
def ChannelError.toCommandError : ChannelError → CommandError
  | .UnexpectedStatus c => .UnexpectedStatus c
  | .Unauthorized => .Unauthorized
  | .BadResponse => .BadResponse
  | _ => .Unknown

/-- Describe command: the request URL (its Display text and its
Url::path()) and the identity of the oneshot reply sender. -/
structure Describe where
  url : String
  path : String
  sinkId : Nat
  deriving Repr, DecidableEq

/-- Command sum type; Describe is the only variant in the source. -/
inductive Command where
  | describe : Describe → Command
  deriving Repr, DecidableEq

/-- Reply sender of a command. -/
def Command.sinkId : Command → Nat
  | .describe d => d.sinkId

/-- Observable effect on a command reply sink: a delivered response (the
body goes on to Sdp::try_from, which is outside the claims and not
modelled) or a delivered error. -/
inductive SinkEvent where
  | response (sinkId : Nat) (status : Status) (headers : List (List Char × List Char))
      (body : List Char)
  | failed (sinkId : Nat) (e : CommandError)
  deriving Repr, DecidableEq

/-- Command::handle_error: send Err(e) on the sink. -/
def Command.handle_error (c : Command) (e : CommandError) : SinkEvent :=
  .failed c.sinkId e

/-- Command::handle_response (Describe): a non-OK status is sent as
UnexpectedStatus, an OK response is delivered with its body. -/
def Command.handle_response (c : Command) (s : Status)
    (headers : List (List Char × List Char)) (body : List Char) : SinkEvent :=
  match c with
  | .describe d =>
    if s ≠ Status.OK then .failed d.sinkId (.UnexpectedStatus s.code)
    else .response d.sinkId s headers body

/-- Rendering of the serialised request of Command::write: request line,
CSeq and User-Agent headers added by handle_command, then the Authorization
header the authorizer emits, then the terminating empty line; returns the
text and the updated authorizer. -/
def Command.renderRequest (c : Command) (auth : Authorizer) (cseq : Nat) : String × Authorizer :=
  match c with
  | .describe d =>
    let base := "DESCRIBE " ++ d.url ++ " RTSP/1.0\r\nCSeq: " ++ toString cseq ++
      "\r\nUser-Agent: rs-streamer\r\n"
    let e := auth.emit d.path
    match e.1 with
    | some v => (base ++ "Authorization: " ++ v ++ "\r\n\r\n", e.2)
    | none => (base ++ "\r\n", e.2)

/-- Channel state of src/rtsp/client/channel.rs; the stream and the two
tokio queue handles are external, sink effects are returned as SinkEvent
lists. -/
structure Channel where
  cseq : Nat
  buffer_rx : Buffer
  buffer_tx : Buffer
  cmd_pending : List (Nat × Command)
  cmd_retry : List Command
  authorizer : Authorizer
  user : Option String
  pass : String
  shutdown : Bool
  deriving Repr, DecidableEq

/-- Bytes of the receive buffer viewed as parser input characters. -/
def bytesToChars (l : List Nat) : List Char := l.map Char.ofNat

/-- HashMap::remove on the pending map modelled as an association list. -/
def lookupRemove (k : Nat) : List (Nat × Command) → Option (Command × List (Nat × Command))
  | [] => none
  | (k2, c) :: rest =>
    if k2 = k then some (c, rest)
    else (lookupRemove k rest).map fun r => (r.1, (k2, c) :: r.2)

namespace Channel

/-- Channel::new: cseq starts at 1, both buffers cap at 512 KiB, no
credentials, authorizer None, not shut down. -/
def new : Channel :=
  ⟨1, Buffer.new (512 * 1024), Buffer.new (512 * 1024), [], [], .noAuth, none, "", false⟩

/-- Channel::shutdown (named do_shutdown here, the source name collides
with the shutdown flag): set the flag and fail every pending-map command
with Cancelled; the retry queue is left as it is. -/
def do_shutdown (ch : Channel) : Channel × List SinkEvent :=
  ({ ch with shutdown := true, cmd_pending := [] },
   ch.cmd_pending.map fun pc => pc.2.handle_error .Cancelled)

/-- Channel::create_authorizer: requires a WWW-Authenticate value
(BadResponse otherwise) and a configured user (Unauthorized otherwise),
then defers to Authorizer::new. -/
def create_authorizer (user : Option String) (pass : String) (www_authenticate : Option String) :
    Res ChannelError Authorizer :=
  match www_authenticate with
  | some www =>
    match user with
    | some u =>
      match Authorizer.new u pass www with
      | .panic => .panic
      | .err e => .err (.InvalidAuthorization e)
      | .ok a => .ok a
    | none => .err .Unauthorized
  | none => .err .BadResponse

/-- Accumulator of the response scan of Channel::read_rtsp_packet: first
CSeq header value parsed as u32, first WWW-Authenticate value, the status,
the body, and the remaining headers in order. -/
structure RtspParseAcc where
  cseq : Option Nat
  www_authenticate : Option (List Char)
  status : Option Status
  body : Option (List Char)
  headers : List (List Char × List Char)
  deriving Repr, DecidableEq

/-- Initial scan accumulator. -/
def accInit : RtspParseAcc := ⟨none, none, none, none, []⟩

/-- Parse loop of Channel::read_rtsp_packet: repeated parse_next feeding
the accumulator until the parser yields nothing; a CSeq value that fails to
parse is InvalidCSeq.  The fuel only bounds the iteration count and is
chosen large enough at every call site. -/
def parseLoop (fuel : Nat) (p : Parser) (data : List Char) (acc : RtspParseAcc) :
    Res ChannelError (Parser × RtspParseAcc) :=
  match fuel with
  | 0 => .panic
  | fuel + 1 =>
    match p.parse_next data with
    | .panic => .panic
    | .err e => .err (.ParseResponse e)
    | .ok (p, none) => .ok (p, acc)
    | .ok (p, some item) =>
      match item with
      | .header name value =>
        if acc.cseq.isNone ∧ eqIgnoreCase name "cseq" then
          match parseU32 value with
          | none => .err .InvalidCSeq
          | some n => parseLoop fuel p data { acc with cseq := some n }
        else if acc.www_authenticate.isNone ∧ eqIgnoreCase name "www-authenticate" then
          parseLoop fuel p data { acc with www_authenticate := some value }
        else parseLoop fuel p data { acc with headers := acc.headers ++ [(name, value)] }
      | .status s => parseLoop fuel p data { acc with status := some s }
      | .body b => parseLoop fuel p data { acc with body := some b }
      | .protocol _ _ => parseLoop fuel p data acc

/-- Response dispatch of Channel::read_rtsp_packet after the parse has
completed: resolve the CSeq against the pending map (a fatal InvalidCSeq
when absent), then branch on the status: 401 installs a new authorizer and
re-enqueues the command on the retry queue, or fails the command when the
challenge is unusable; 200 delivers the response (a missing body is a fatal
BadResponse, propagated after the command was already removed); any other
status fails the command with UnexpectedStatus; a missing status fails it
with BadResponse.  The outer Option is the panic case. -/
def dispatchResponse (ch : Channel) (acc : RtspParseAcc) :
    Option (Channel × List SinkEvent × Except ChannelError Unit) :=
  match acc.cseq with
  | none => some (ch, [], .error .InvalidCSeq)
  | some cseq =>
    match lookupRemove cseq ch.cmd_pending with
    | none => some (ch, [], .error .InvalidCSeq)
    | some (cmd, rest) =>
      let ch := { ch with cmd_pending := rest }
      match acc.status with
      | some s =>
        if s = Status.Unauthorized then
          match create_authorizer ch.user ch.pass (acc.www_authenticate.map String.mk) with
          | .panic => none
          | .ok a => some ({ ch with authorizer := a, cmd_retry := ch.cmd_retry ++ [cmd] }, [], .ok ())
          | .err e => some (ch, [cmd.handle_error e.toCommandError], .ok ())
        else if s = Status.OK then
          match acc.body with
          | none => some (ch, [], .error .BadResponse)
          | some b => some (ch, [cmd.handle_response s acc.headers b], .ok ())
        else some (ch, [cmd.handle_error (.UnexpectedStatus s.code)], .ok ())
      | none => some (ch, [cmd.handle_error .BadResponse], .ok ())

/-- Channel::read_rtsp_packet: parse the receive-buffer read slice with a
fresh parser; an incomplete parse reports HeaderTooLong, RequestTooLong or
IncompleteResponse; a complete parse dispatches and reports the consumed
byte count.  The outer Option is the panic case. -/
def read_rtsp_packet (ch : Channel) : Option (Channel × List SinkEvent × Except ChannelError Nat) :=
  let read_buf := bytesToChars ch.buffer_rx.get_read_slice
  match parseLoop (read_buf.length + 8) Parser.new read_buf accInit with
  | .panic => none
  | .err e => some (ch, [], .error e)
  | .ok (parser, acc) =>
    if parser.is_done then
      (ch.dispatchResponse acc).map fun r =>
        (r.1, r.2.1, r.2.2.map fun _ => parser.parsed_bytes)
    else
      match parser.missing_bytes with
      | none =>
        some (ch, [], .error (if read_buf.length > 1024 then .HeaderTooLong else .IncompleteResponse))
      | some bytes =>
        some (ch, [], .error (if bytes > 32 * 1024 then .RequestTooLong else .IncompleteResponse))

/-- Channel::read_rtp_or_rtcp_packet, verbatim from the source: Ok(0). -/
def read_rtp_or_rtcp_packet (ch : Channel) :
    Option (Channel × List SinkEvent × Except ChannelError Nat) :=
  some (ch, [], .ok 0)

/-- Channel::read_packet: an empty read slice consumes nothing; a leading
0x24 (the dollar byte) routes to read_rtp_or_rtcp_packet, anything else to
read_rtsp_packet. -/
def read_packet (ch : Channel) : Option (Channel × List SinkEvent × Except ChannelError Nat) :=
  let read_buf := ch.buffer_rx.get_read_slice
  if read_buf = [] then some (ch, [], .ok 0)
  else if read_buf.headD 0 = 36 then ch.read_rtp_or_rtcp_packet
  else ch.read_rtsp_packet

/-- Loop body of Channel::handle_data: read_packet until it consumes
nothing, consuming the reported bytes from the receive buffer; an
IncompleteResponse breaks for a later retry, any other error triggers
shutdown.  Fuel bounds the iterations and is chosen at the call site. -/
def handle_data_go (fuel : Nat) (ch : Channel) (evs : List SinkEvent) :
    Option (Channel × List SinkEvent) :=
  match fuel with
  | 0 => none
  | fuel + 1 =>
    match ch.read_packet with
    | none => none
    | some (ch, evs2, .ok n) =>
      if n = 0 then some (ch, evs ++ evs2)
      else handle_data_go fuel { ch with buffer_rx := ch.buffer_rx.notify_read n } (evs ++ evs2)
    | some (ch, evs2, .error e) =>
      match e with
      | .IncompleteResponse => some (ch, evs ++ evs2)
      | _ =>
        let r := ch.do_shutdown
        some (r.1, evs ++ evs2 ++ r.2)

/-- Channel::handle_data. -/
def handle_data (ch : Channel) : Option (Channel × List SinkEvent) :=
  handle_data_go (ch.buffer_rx.get_read_slice.length + 1) ch []

/-- Channel::handle_command: take the next cseq (u32 wrap), unwrap a
4096-byte transmit write slice (a panic on NotEnoughSpace), unwrap the
serialisation (a panic when the rendered request exceeds the slice), then
record the command in the pending map.  The Option is the panic case. -/
def handle_command (ch : Channel) (cmd : Command) : Option Channel :=
  let cseq := ch.cseq
  let ch := { ch with cseq := (ch.cseq + 1) % M32 }
  match ch.buffer_tx.get_write_slice 4096 with
  | .error _ => none
  | .ok (btx, slice_len) =>
    let r := cmd.renderRequest ch.authorizer cseq
    let bytes := asciiBytes r.1
    if bytes.length > slice_len then none
    else
      some { ch with
        buffer_tx := (btx.fill bytes).notify_write bytes.length,
        authorizer := r.2,
        cmd_pending := ch.cmd_pending ++ [(cseq, cmd)] }

/-- Recursion of Channel::handle_retry_cmds over the drained retry queue in
front-to-back order. -/
def handle_retry_go : List Command → Channel → Option Channel
  | [], ch => some ch
  | c :: rest, ch =>
    match ch.handle_command c with
    | none => none
    | some ch => handle_retry_go rest ch

/-- Channel::handle_retry_cmds: pop every queued retry command and pass it
through handle_command. -/
def handle_retry_cmds (ch : Channel) : Option Channel :=
  handle_retry_go ch.cmd_retry { ch with cmd_retry := [] }

end Channel

/-! ## Support lemmas -/

/-- Heap insertion grows the heap by one packet. -/
theorem heapInsert_length (p : Packet) (l : List Packet) :
    (heapInsert p l).length = l.length + 1 := by
  induction l with
  | nil => rfl
  | cons q rest ih =>
    unfold heapInsert
    by_cases h : p.sequence_number < q.sequence_number
    · simp [h]
    · simp [h, ih]

/-- Evaluation of get_write_slice in its growth branch: the data vector is
resized to write_pos + n and the returned slice covers exactly n bytes. -/
theorem Buffer.get_write_slice_grow (b : Buffer) (n : Nat)
    (h1 : b.data.length < b.write_pos + n) (h2 : b.read_pos < n)
    (h3 : b.write_pos + n ≤ b.max_capacity) :
    b.get_write_slice n =
      .ok ({ b with data := b.data ++ List.replicate (b.write_pos + n - b.data.length) 0 }, n) := by
  unfold Buffer.get_write_slice
  rw [if_pos (by omega), if_neg (by omega), if_pos h3]
  simp only [Except.ok.injEq, Prod.mk.injEq, List.length_append, List.length_replicate]
  exact ⟨trivial, by omega⟩

/-- Evaluation of handle_command when the write slice is granted and the
rendered request fits into it. -/
theorem Channel.handle_command_eq (ch : Channel) (cmd : Command) (btx : Buffer) (m : Nat)
    (h : ch.buffer_tx.get_write_slice 4096 = .ok (btx, m))
    (hlen : (asciiBytes (cmd.renderRequest ch.authorizer ch.cseq).1).length ≤ m) :
    ch.handle_command cmd = some { ch with
      cseq := (ch.cseq + 1) % M32,
      buffer_tx := (btx.fill (asciiBytes (cmd.renderRequest ch.authorizer ch.cseq).1)).notify_write
        (asciiBytes (cmd.renderRequest ch.authorizer ch.cseq).1).length,
      authorizer := (cmd.renderRequest ch.authorizer ch.cseq).2,
      cmd_pending := ch.cmd_pending ++ [(ch.cseq, cmd)] } := by
  unfold Channel.handle_command
  simp only [h]
  rw [if_neg (by omega)]

/-- Test packet with the given big-endian sequence-number bytes: version 2,
no padding, payload type 96, zero timestamp and SSRC. -/
def pktOfSeq (hi lo : Nat) : Packet :=
  ⟨[128, 96, hi, lo, 0, 0, 0, 0, 0, 0, 0, 0]⟩

/-! ## Claim C6: reorder-queue offer and poll -/

/-- C6 (amended): push_or_return delivers the packet immediately exactly
when last_read_sn is 0 (the initial sentinel; there is no genuine Option
state) or the sequence number is last_read_sn + 1 modulo 2^16, updating
last_read_sn; it leaves the queue state unchanged (discard) exactly when
the packet is not delivered and its sequence number is strictly below
last_read_sn, so a duplicate of the last delivered sequence number is
inserted into the heap rather than discarded; pop releases the heap head
exactly when its sequence number is last_read_sn + 1 modulo 2^16 or the
heap holds at least max_len packets, updating last_read_sn and removing the
head. -/
theorem c6_offer_poll_characterisation :
    (∀ (q : ReorderQueue) (p : Packet),
      ((q.push_or_return p).1 = some p ↔
        q.last_read_sn = 0 ∨ p.sequence_number = (q.last_read_sn + 1) % 65536) ∧
      ((q.push_or_return p).1 = some p →
        (q.push_or_return p).2.last_read_sn = p.sequence_number) ∧
      (q.push_or_return p = (none, q) ↔
        ¬ (q.last_read_sn = 0 ∨ p.sequence_number = (q.last_read_sn + 1) % 65536) ∧
          p.sequence_number < q.last_read_sn)) ∧
    (∀ q : ReorderQueue,
      ((q.pop).1 ≠ none ↔ q.queue ≠ [] ∧
        ((q.queue.headD ⟨[]⟩).sequence_number = (q.last_read_sn + 1) % 65536 ∨
          q.max_len ≤ q.queue.length)) ∧
      ∀ p, (q.pop).1 = some p →
        p = q.queue.headD ⟨[]⟩ ∧ (q.pop).2.last_read_sn = p.sequence_number ∧
          (q.pop).2.queue = q.queue.tail) := by
  constructor
  · intro q p
    unfold ReorderQueue.push_or_return
    by_cases hd : q.last_read_sn = 0 ∨ p.sequence_number = (q.last_read_sn + 1) % 65536
    · simp [hd]
    · rw [if_neg hd]
      by_cases hold : p.sequence_number < q.last_read_sn
      · simp [hold, hd]
      · have hne : ({ q with queue := heapInsert p q.queue } : ReorderQueue) ≠ q := by
          intro he
          have := congrArg (fun r => r.queue.length) he
          simp only [heapInsert_length] at this
          omega
        simp [hold, hd, hne]
  · intro q
    obtain ⟨qs, ml, ls⟩ := q
    cases qs with
    | nil => simp [ReorderQueue.pop]
    | cons p0 rest =>
      by_cases hc : p0.sequence_number = (ls + 1) % 65536 ∨ (p0 :: rest).length ≥ ml
      · have he : (⟨p0 :: rest, ml, ls⟩ : ReorderQueue).pop =
            (some p0, ⟨rest, ml, p0.sequence_number⟩) := by
          unfold ReorderQueue.pop
          dsimp only
          rw [if_pos hc]
        rw [he]
        constructor
        · simpa using hc
        · intro p hp
          obtain rfl : p0 = p := by simpa using hp
          simp
      · have he : (⟨p0 :: rest, ml, ls⟩ : ReorderQueue).pop =
            (none, ⟨p0 :: rest, ml, ls⟩) := by
          unfold ReorderQueue.pop
          dsimp only
          rw [if_neg hc]
        rw [he]
        constructor
        · constructor
          · intro hfalse
            exact absurd rfl hfalse
          · intro hr
            exact absurd (by simpa using hr.2) hc
        · intro p hp
          simp at hp

/-- C6 witness: the characterisation applied to a fresh queue, whose first
offered packet is delivered immediately. -/
theorem c6_witness :
    (((ReorderQueue.new 5).push_or_return (pktOfSeq 0 100)).1 = some (pktOfSeq 0 100)) :=
  ((c6_offer_poll_characterisation.1 (ReorderQueue.new 5) (pktOfSeq 0 100)).1).mpr (Or.inl rfl)

/-- C6 counterexample: after delivering sequence 100, offering sequence 100
again is not discarded as the claim states; the duplicate is inserted into
the heap (the heap grows to one packet). -/
theorem c6_counterexample :
    (((ReorderQueue.new 5).push_or_return (pktOfSeq 0 100)).2.push_or_return (pktOfSeq 0 100)).1
        = none ∧
    (pktOfSeq 0 100).sequence_number ≤
      (((ReorderQueue.new 5).push_or_return (pktOfSeq 0 100)).2).last_read_sn ∧
    (((ReorderQueue.new 5).push_or_return (pktOfSeq 0 100)).2.push_or_return
        (pktOfSeq 0 100)).2.queue.length = 1 := by
  decide

/-! ## Claim C7: sequence-number comparison across rollover -/

/-- C7 (amended): only the next-in-line test is computed modulo 2^16 (u16
wrap-around addition), so after delivering 65535 a packet with sequence 0
is delivered as next in line; the older-than-last discard test is a plain
unsigned u16 comparison, not a signed 16-bit delta: a packet that is not
delivered immediately is discarded exactly when its sequence number is
numerically below last_read_sn, regardless of the signed delta. -/
theorem c7_rollover_comparisons :
    (∀ (q : ReorderQueue) (p : Packet), q.last_read_sn = 65535 → p.sequence_number = 0 →
      (q.push_or_return p).1 = some p) ∧
    (∀ (q : ReorderQueue) (p : Packet),
      ¬ (q.last_read_sn = 0 ∨ p.sequence_number = (q.last_read_sn + 1) % 65536) →
      (q.push_or_return p = (none, q) ↔ p.sequence_number < q.last_read_sn)) := by
  constructor
  · intro q p hl hs
    unfold ReorderQueue.push_or_return
    rw [if_pos (by rw [hl, hs]; exact Or.inr (by decide))]
  · intro q p hnd
    unfold ReorderQueue.push_or_return
    rw [if_neg hnd]
    by_cases hold : p.sequence_number < q.last_read_sn
    · simp [hold]
    · have hne : ({ q with queue := heapInsert p q.queue } : ReorderQueue) ≠ q := by
        intro he
        have := congrArg (fun r => r.queue.length) he
        simp only [heapInsert_length] at this
        omega
      simp [hold, hne]

/-- C7 witness: the rollover delivery applied to a queue that has just
delivered 65535. -/
theorem c7_witness :
    ((⟨[], 5, 65535⟩ : ReorderQueue).push_or_return (pktOfSeq 0 0)).1 = some (pktOfSeq 0 0) :=
  c7_rollover_comparisons.1 ⟨[], 5, 65535⟩ (pktOfSeq 0 0) rfl rfl

/-- C7 counterexample: after delivering sequence 40000, a packet with
sequence 100 has positive signed 16-bit delta (newer per the claim, to be
kept), yet the code discards it by the plain unsigned comparison: the
offer returns nothing and the queue state is unchanged. -/
theorem c7_counterexample :
    (((ReorderQueue.new 5).push_or_return (pktOfSeq (40000 / 256) (40000 % 256))).2).last_read_sn
        = 40000 ∧
    seqDiff (pktOfSeq 0 100).sequence_number 40000 > 0 ∧
    (((ReorderQueue.new 5).push_or_return (pktOfSeq (40000 / 256) (40000 % 256))).2.push_or_return
        (pktOfSeq 0 100)) =
      (none, ((ReorderQueue.new 5).push_or_return (pktOfSeq (40000 / 256) (40000 % 256))).2) := by
  decide

/-! ## Claim C10: totality of the packet accessors -/

/-- C10 (amended): for a buffer accepted by Packet::new, data() returns a
sub-slice without panicking if and only if the padding flag is unset, or
the declared padding length (the last byte) fits: it does not exceed the
buffer length and leaves at least data_offset bytes before it.  With the
padding flag set and a declared padding length exceeding the room after the
data offset, data() panics (the model returns none). -/
theorem c10_data_totality (b : List Nat) (p : Packet) (h : Packet.new b = some p) :
    (p.data).isSome ↔
      (¬ p.padding ∨
        (p.byte (p.len - 1) ≤ p.len ∧ p.data_offset ≤ p.len - p.byte (p.len - 1))) := by
  have hp : p = ⟨b⟩ ∧ ¬ (Packet.len ⟨b⟩ < 12 ∨ Packet.len ⟨b⟩ < Packet.data_offset ⟨b⟩) := by
    unfold Packet.new at h
    dsimp only at h
    split at h
    · exact absurd h (by simp)
    · exact ⟨by injection h with h2; exact h2.symm, by assumption⟩
  obtain ⟨hpb, hcond⟩ := hp
  subst hpb
  unfold Packet.data
  by_cases hpad : Packet.padding ⟨b⟩
  · simp only [if_pos hpad]
    by_cases hfit : Packet.byte ⟨b⟩ (Packet.len ⟨b⟩ - 1) ≤ Packet.len ⟨b⟩ ∧
        Packet.data_offset ⟨b⟩ ≤ Packet.len ⟨b⟩ - Packet.byte ⟨b⟩ (Packet.len ⟨b⟩ - 1)
    · simp [hfit, hpad]
    · simp [hfit, hpad]
  · simp only [if_neg hpad]
    rw [if_pos (by omega)]
    simp [hpad]

/-- C10 witness: the totality criterion applied to a packet with a padding
flag and one declared padding byte that fits, whose data() is defined. -/
theorem c10_witness :
    (Packet.data ⟨[160, 96, 0, 23, 0, 0, 0, 0, 0, 0, 0, 0, 1]⟩).isSome :=
  (c10_data_totality [160, 96, 0, 23, 0, 0, 0, 0, 0, 0, 0, 0, 1] ⟨_⟩ (by decide)).mpr
    (by decide)

/-- C10 counterexample: Packet::new accepts a 12-byte buffer with the
padding flag set and last byte 255, and data() panics on it (none in the
model): the accessor is not total. -/
theorem c10_counterexample :
    (Packet.new [160, 96, 0, 23, 0, 0, 0, 0, 0, 0, 0, 255]).map Packet.data = some none := by
  decide

/-! ## Claim C8: ring-buffer write-slice policy -/

/-- Spec-side predicate, stated from the specification wording of
write_slice for comparison with the code: tail space suffices, or
compaction (moving the unread bytes to offset 0) would leave at least n
bytes of tail space, or expansion within max_capacity is possible. -/
def specWriteObtainable (b : Buffer) (n : Nat) : Prop :=
  b.write_pos + n ≤ b.data.length ∨
  (b.write_pos - b.read_pos) + n ≤ b.data.length ∨
  b.write_pos + n ≤ b.max_capacity

instance (b : Buffer) (n : Nat) : Decidable (specWriteObtainable b n) := by
  unfold specWriteObtainable; infer_instance

instance {ε α : Type} [DecidableEq ε] [DecidableEq α] : DecidableEq (Except ε α) := fun a b =>
  match a, b with
  | .ok x, .ok y =>
    if h : x = y then .isTrue (by rw [h]) else .isFalse (fun he => h (by injection he))
  | .error e, .error f =>
    if h : e = f then .isTrue (by rw [h]) else .isFalse (fun he => h (by injection he))
  | .ok _, .error _ => .isFalse (fun he => Except.noConfusion he)
  | .error _, .ok _ => .isFalse (fun he => Except.noConfusion he)

/-- C8 (amended): get_write_slice applies, in order, tail space when
write_pos + n ≤ len(data); else compaction, but under the condition
n ≤ read_pos rather than the claim's condition that compaction yields
enough tail space; else growth to write_pos + n within max_capacity.  On
success the returned slice holds at least n bytes, the invariant is
preserved and the unread bytes are unchanged.  NotEnoughSpace is returned
exactly when the three code conditions fail, which happens on states where
compaction would have provided the space. -/
theorem c8_write_slice_characterisation (b : Buffer) (n : Nat) (hwf : b.Wf) :
    (∀ b2 m, b.get_write_slice n = .ok (b2, m) →
      n ≤ m ∧ b2.Wf ∧ b2.get_read_slice = b.get_read_slice ∧
        b2.max_capacity = b.max_capacity) ∧
    (b.get_write_slice n = .error .NotEnoughSpace ↔
      b.data.length < b.write_pos + n ∧ b.read_pos < n ∧ b.max_capacity < b.write_pos + n) := by
  obtain ⟨hrw, hwl, hlc⟩ := hwf
  by_cases hA : b.write_pos + n > b.data.length
  · by_cases hB : n ≤ b.read_pos
    · -- compaction branch
      have he : b.get_write_slice n =
          .ok (⟨(b.data.drop b.read_pos).take (b.write_pos - b.read_pos) ++
              b.data.drop (b.write_pos - b.read_pos),
            b.max_capacity, 0, b.write_pos - b.read_pos⟩,
            ((b.data.drop b.read_pos).take (b.write_pos - b.read_pos) ++
              b.data.drop (b.write_pos - b.read_pos)).length - (b.write_pos - b.read_pos)) := by
        unfold Buffer.get_write_slice
        rw [if_pos hA, if_pos hB]
      have hlen : ((b.data.drop b.read_pos).take (b.write_pos - b.read_pos) ++
          b.data.drop (b.write_pos - b.read_pos)).length = b.data.length := by
        simp only [List.length_append, List.length_take, List.length_drop]
        omega
      refine ⟨?_, by rw [he]; simp; omega⟩
      intro b2 m heq
      rw [he] at heq
      simp only [Except.ok.injEq, Prod.mk.injEq] at heq
      obtain ⟨rfl, rfl⟩ := heq.symm
      refine ⟨by rw [hlen]; omega, ?_, ?_, rfl⟩
      · unfold Buffer.Wf
        dsimp only
        rw [hlen]
        omega
      show (((b.data.drop b.read_pos).take (b.write_pos - b.read_pos) ++
          b.data.drop (b.write_pos - b.read_pos)).take (b.write_pos - b.read_pos)).drop 0 =
        (b.data.take b.write_pos).drop b.read_pos
      rw [List.drop_zero,
        List.take_append_of_le_length (by simp only [List.length_take, List.length_drop]; omega),
        List.take_take, Nat.min_self, List.drop_take]
    · by_cases hC : b.write_pos + n ≤ b.max_capacity
      · -- growth branch
        have he := Buffer.get_write_slice_grow b n (by omega) (by omega) hC
        refine ⟨?_, by rw [he]; simp; omega⟩
        intro b2 m heq
        rw [he] at heq
        simp only [Except.ok.injEq, Prod.mk.injEq] at heq
        obtain ⟨rfl, rfl⟩ := heq.symm
        refine ⟨le_refl n, ?_, ?_, rfl⟩
        · unfold Buffer.Wf
          dsimp only
          simp only [List.length_append, List.length_replicate]
          omega
        show ((b.data ++ List.replicate (b.write_pos + n - b.data.length) 0).take
            b.write_pos).drop b.read_pos = (b.data.take b.write_pos).drop b.read_pos
        rw [List.take_append_of_le_length hwl]
      · -- failure branch
        have he : b.get_write_slice n = .error .NotEnoughSpace := by
          unfold Buffer.get_write_slice
          rw [if_pos hA, if_neg hB, if_neg hC]
        refine ⟨?_, by rw [he]; simp; omega⟩
        intro b2 m heq
        rw [he] at heq
        exact absurd heq (by simp)
  · -- tail branch
    have he : b.get_write_slice n = .ok (b, b.data.length - b.write_pos) := by
      unfold Buffer.get_write_slice
      rw [if_neg hA]
    refine ⟨?_, by rw [he]; simp; omega⟩
    intro b2 m heq
    rw [he] at heq
    simp only [Except.ok.injEq, Prod.mk.injEq] at heq
    obtain ⟨rfl, rfl⟩ := heq.symm
    exact ⟨by omega, ⟨hrw, hwl, hlc⟩, rfl, rfl⟩

/-- C8 witness: the characterisation applied to a buffer of four bytes with
one consumed, asking for six more within a capacity of ten (the growth
step): the granted slice holds at least six bytes, the grown buffer is
well-formed and its unread bytes are unchanged. -/
theorem c8_witness :
    6 ≤ 6 ∧ (⟨[1, 2, 3, 4, 0, 0, 0, 0, 0, 0], 10, 1, 4⟩ : Buffer).Wf ∧
    (⟨[1, 2, 3, 4, 0, 0, 0, 0, 0, 0], 10, 1, 4⟩ : Buffer).get_read_slice =
      (⟨[1, 2, 3, 4], 10, 1, 4⟩ : Buffer).get_read_slice ∧
    (⟨[1, 2, 3, 4, 0, 0, 0, 0, 0, 0], 10, 1, 4⟩ : Buffer).max_capacity = 10 :=
  (c8_write_slice_characterisation ⟨[1, 2, 3, 4], 10, 1, 4⟩ 6 (by decide)).1
    ⟨[1, 2, 3, 4, 0, 0, 0, 0, 0, 0], 10, 1, 4⟩ 6 (by decide)

/-- C8 counterexample: a full ten-byte buffer with two bytes consumed,
reached through the public operations, satisfies the claim's step-2
condition (compaction would leave three tail bytes for a request of three)
but get_write_slice returns NotEnoughSpace. -/
theorem c8_counterexample :
    ((((Buffer.new 10).get_write_slice 10).toOption.getD (Buffer.new 10, 0)).1.notify_write
        9).notify_read 2 = (⟨List.replicate 10 0, 10, 2, 9⟩ : Buffer) ∧
    (⟨List.replicate 10 0, 10, 2, 9⟩ : Buffer).Wf ∧
    specWriteObtainable ⟨List.replicate 10 0, 10, 2, 9⟩ 3 ∧
    (⟨List.replicate 10 0, 10, 2, 9⟩ : Buffer).get_write_slice 3 =
      .error .NotEnoughSpace := by
  decide

/-! ## Claim C4: Digest response computation and nonce count -/

/-- Spec-side formula for the Digest response field, stated from the
specification words for comparison with the code-side Digest.write:
MD5(MD5(user:realm:pass) : nonce : nc : cnonce : qop : MD5(method:uri))
with qop equal to auth, rendered in lowercase hex. -/
def specDigestResponse (user realm pass nonce ncHex cnonceHex method uri : String) : String :=
  md5hex (md5hex (user ++ ":" ++ realm ++ ":" ++ pass) ++ ":" ++ nonce ++ ":" ++ ncHex ++
    ":" ++ cnonceHex ++ ":auth:" ++ md5hex (method ++ ":" ++ uri))

/-- C4: evaluation of Digest::write at the failing input (realm r, nonce n,
user u, password p, request DESCRIBE on the path /).  The first emitted
header carries nc 00000000, not 1; its response field is the bare hex MD5
of user:realm:pass, which differs from the specification formula (with the
nc and cnonce values the claim prescribes for this first emission); the
counter then increments by one per emission as the second emitted header
shows. -/
theorem c4_digest_divergence :
    ((Digest.new "r" "n" none "u" "p").write "/").1.nc = "00000000" ∧
    ((Digest.new "r" "n" none "u" "p").write "/").1.response =
      md5hex ("u" ++ ":" ++ "r" ++ ":" ++ "p") ∧
    ((Digest.new "r" "n" none "u" "p").write "/").1.response ≠
      specDigestResponse "u" "r" "p" "n" "00000001" "00000000" "DESCRIBE" "/" ∧
    ((Digest.new "r" "n" none "u" "p").write "/").2.nc = 1 ∧
    (((Digest.new "r" "n" none "u" "p").write "/").2.write "/").1.nc = "00000001" := by
  refine ⟨rfl, rfl, by decide, rfl, rfl⟩

/-! ## Claim C5: parser behaviour on response prefixes -/

/-- C5 (amended): the streaming parser is only re-entrant at a cut inside
the body: in state ExpectBody with the cursor inside the input and fewer
remaining bytes than content_length, parse_next returns no item, no error
and leaves the parser unchanged, and once enough bytes of the same response
arrive it consumes exactly content_length bytes and yields the body.  (A
prefix that ends inside a header line is instead treated as if the line
were complete, which can yield premature items, parse errors, a cursor
beyond the input, or a panic, as the counterexample shows.) -/
theorem c5_body_resumption (p : Parser) (data extra : List Char)
    (h1 : p.state = .ExpectBody) (h2 : p.pos ≤ data.length)
    (h3 : data.length < p.pos + p.content_length) :
    p.parse_next data = .ok (p, none) ∧
    (p.pos + p.content_length ≤ data.length + extra.length →
      p.parse_next (data ++ extra) =
        .ok ({ p with pos := p.pos + p.content_length, state := .Done },
          some (.body (((data ++ extra).drop p.pos).take p.content_length)))) := by
  constructor
  · unfold Parser.parse_next
    rw [h1]
    unfold Parser.parse_body
    rw [if_neg (by omega)]
    rw [if_neg (by simp only [List.length_drop]; omega)]
  · intro h4
    unfold Parser.parse_next
    rw [h1]
    unfold Parser.parse_body
    rw [if_neg (by simp only [List.length_append]; omega)]
    rw [if_pos (by simp only [List.length_drop, List.length_append]; omega)]

/-- C5 witness: the resumption theorem applied to a parser expecting a
five-byte body at position 3 of an eight-byte input that ends after two
body bytes. -/
theorem c5_witness :
    (⟨.ExpectBody, 3, 3, 5⟩ : Parser).parse_next ("abcde").data =
      .ok (⟨.ExpectBody, 3, 3, 5⟩, none) :=
  (c5_body_resumption ⟨.ExpectBody, 3, 3, 5⟩ ("abcde").data ("fgh").data rfl
    (by decide) (by decide)).1

/-- C5 counterexample: the response RTSP/1.0 200 OK CRLF CSeq: 1 CRLF CRLF
is parsed to completion (status, one header, empty body) consuming exactly
its 28 bytes; but on its strict 24-byte prefix that ends inside the header
line, the third parse_next yields a premature header item and leaves
parsed_bytes at 26, exceeding the input length, and the fourth call
panics, contradicting the claimed prefix behaviour. -/
theorem c5_counterexample :
    ("RTSP/1.0 200 OK\r\nCSeq: 1").data ++ ("\r\n\r\n").data =
      ("RTSP/1.0 200 OK\r\nCSeq: 1\r\n\r\n").data ∧
    parseSteps 5 Parser.new ("RTSP/1.0 200 OK\r\nCSeq: 1\r\n\r\n").data =
      .ok (⟨.Done, 28, 28, 0⟩,
        [.protocol 1 0, .status ⟨200⟩, .header ("CSeq").data ("1").data, .body []]) ∧
    (⟨.Done, 28, 28, 0⟩ : Parser).is_done = true ∧
    Parser.parsed_bytes ⟨.Done, 28, 28, 0⟩ = 28 ∧
    parseSteps 3 Parser.new ("RTSP/1.0 200 OK\r\nCSeq: 1").data =
      .ok (⟨.ExpectHeader, 26, 0, 0⟩, [.protocol 1 0, .status ⟨200⟩,
        .header ("CSeq").data ("1").data]) ∧
    Parser.parsed_bytes ⟨.ExpectHeader, 26, 0, 0⟩ = 26 ∧
    ("RTSP/1.0 200 OK\r\nCSeq: 1").data.length = 24 ∧
    parseSteps 4 Parser.new ("RTSP/1.0 200 OK\r\nCSeq: 1").data = .panic := by
  decide

/-! ## Channel claim fixtures -/

/-- Test Describe command: reply sink 7, request URL rtsp://h/s. -/
def cmd0 : Command := .describe ⟨"rtsp://h/s", "/s", 7⟩

/-- Channel with credentials and one pending command under CSeq 1. -/
def chA : Channel :=
  { Channel.new with cseq := 2, user := some "u", pass := "p", cmd_pending := [(1, cmd0)] }

/-- WWW-Authenticate challenge value used in the 401 scenarios. -/
def wwwBasic : List Char := ("Basic realm=\"r\"").data

/-- Response scan result of a 401 response carrying the given CSeq and the
Basic challenge. -/
def accOf (n : Nat) : Channel.RtspParseAcc := ⟨some n, some wwwBasic, some ⟨401⟩, none, []⟩

/-- Channel state after dispatching the first 401 on chA: the command moved
from the pending map to the retry queue and the Basic authorizer is
installed. -/
def chB : Channel :=
  { chA with cmd_pending := [], authorizer := .basic ⟨"Basic dTpw"⟩, cmd_retry := [cmd0] }

/-- chB with the retry queue drained, the receiver state inside
handle_retry_cmds. -/
def chB0 : Channel := { chB with cmd_retry := [] }

/-- Bytes of the retried request as serialised with the Basic authorizer
under CSeq 2. -/
def reqBytes2 : List Nat := asciiBytes (cmd0.renderRequest (.basic ⟨"Basic dTpw"⟩) 2).1

/-- Channel state after handle_retry_cmds re-serialised the command: it is
pending again under CSeq 2. -/
def chC : Channel :=
  { chB0 with
    cseq := 3,
    buffer_tx := ((⟨List.replicate 4096 0, 512 * 1024, 0, 0⟩ : Buffer).fill
      reqBytes2).notify_write reqBytes2.length,
    authorizer := .basic ⟨"Basic dTpw"⟩,
    cmd_pending := [(2, cmd0)] }

/-! ## Claim C1: interleaved media frames -/

/-- Channel whose receive buffer holds one complete interleaved frame:
dollar byte, channel id 0, big-endian length 12, then a 12-byte RTP packet
with payload-type byte 96 (not in the RTCP range 200 to 207). -/
def chInterleaved : Channel :=
  { Channel.new with
    buffer_rx := ⟨[36, 0, 0, 12, 128, 96, 0, 23, 0, 0, 0, 0, 0, 0, 0, 0], 512 * 1024, 0, 16⟩ }

/-- C1: Channel::read_rtp_or_rtcp_packet is a stub returning Ok(0) for
every channel state; on a receive buffer holding a complete interleaved
frame, read_packet routes to it and consumes zero bytes, emits nothing and
changes nothing, and handle_data then stops with the frame still in the
buffer: no classification, no reorder-queue offer, no forwarding, no
consumption. -/
theorem c1_interleaved_stub :
    (∀ ch : Channel, ch.read_rtp_or_rtcp_packet = some (ch, [], .ok 0)) ∧
    chInterleaved.read_packet = some (chInterleaved, [], .ok 0) ∧
    chInterleaved.handle_data = some (chInterleaved, []) := by
  refine ⟨fun ch => rfl, by decide, by decide⟩

/-! ## Claim C2: cancellation scope on shutdown -/

/-- C2 (amended): Channel::shutdown sets the shutdown flag, clears the
pending map, and delivers Cancelled to exactly the commands of the pending
map: every pending command receives Cancelled, every emitted event belongs
to a pending command, and the retry queue is left untouched, so its
commands receive nothing. -/
theorem c2_shutdown_scope (ch : Channel) :
    (ch.do_shutdown).1.shutdown = true ∧
    (ch.do_shutdown).1.cmd_pending = [] ∧
    (ch.do_shutdown).1.cmd_retry = ch.cmd_retry ∧
    (∀ k cmd, (k, cmd) ∈ ch.cmd_pending →
      SinkEvent.failed cmd.sinkId CommandError.Cancelled ∈ (ch.do_shutdown).2) ∧
    (∀ ev, ev ∈ (ch.do_shutdown).2 →
      ∃ pc, pc ∈ ch.cmd_pending ∧ ev = SinkEvent.failed pc.2.sinkId CommandError.Cancelled) := by
  refine ⟨rfl, rfl, rfl, ?_, ?_⟩
  · intro k cmd hmem
    exact List.mem_map.mpr ⟨(k, cmd), hmem, rfl⟩
  · intro ev hev
    obtain ⟨pc, hpc, rfl⟩ := List.mem_map.mp hev
    exact ⟨pc, hpc, rfl⟩

/-- C2 witness: the cancellation scope applied to a channel with one
pending command on sink 7, which receives Cancelled. -/
theorem c2_witness :
    SinkEvent.failed 7 CommandError.Cancelled ∈ (chA.do_shutdown).2 :=
  (c2_shutdown_scope chA).2.2.2.1 1 cmd0 (by decide)

/-- C2 counterexample: a channel with credentials and one pending command
receives a 401 response that moves the command to the retry queue, followed
by an unparseable frame that triggers shutdown; the channel ends shut down
with the command still in the retry queue and an empty event list: the
retry-queue command never receives Cancelled (or any result). -/
theorem c2_counterexample :
    (({ chA with buffer_rx :=
        ⟨asciiBytes ("RTSP/1.0 401 Unauthorized\r\nCSeq: 1\r\nWWW-Authenticate: " ++
          "Basic realm=\"r\"\r\n\r\nA\r\n\r\n"), 512 * 1024, 0, 78⟩ } : Channel).handle_data).map
      (fun r => (r.1.shutdown, r.1.cmd_retry, r.1.cmd_pending, r.2)) =
    some (true, [cmd0], [], []) := by
  decide

/-! ## Claim C9: transmit-buffer exhaustion -/

/-- C9 (amended): when the transmit buffer cannot grant the 4096-byte write
slice, handle_command panics on the unwrap (the model returns none): the
channel does not shut down and no command is failed with Cancelled. -/
theorem c9_tx_exhaustion_panics (ch : Channel) (cmd : Command)
    (h : ch.buffer_tx.get_write_slice 4096 = .error .NotEnoughSpace) :
    ch.handle_command cmd = none := by
  unfold Channel.handle_command
  dsimp only
  rw [h]

/-- C9 witness: the panic conclusion applied to a channel whose full
ten-byte transmit buffer cannot provide the slice. -/
theorem c9_witness :
    ({ Channel.new with buffer_tx := ⟨List.replicate 10 0, 10, 1, 10⟩ } : Channel).handle_command
      cmd0 = none :=
  c9_tx_exhaustion_panics _ cmd0 (by decide)

/-- C9 counterexample: on a channel with a pending command and a transmit
buffer that denies the write slice with NotEnoughSpace, handle_command
panics (none); it does not return a state, in particular not one with the
shutdown flag set or with the pending command failed, contradicting the
claimed shutdown behaviour. -/
theorem c9_counterexample :
    ({ Channel.new with
        buffer_tx := ⟨List.replicate 10 0, 10, 1, 10⟩,
        cmd_pending := [(1, cmd0)] } : Channel).buffer_tx.get_write_slice 4096 =
      .error .NotEnoughSpace ∧
    ({ Channel.new with
        buffer_tx := ⟨List.replicate 10 0, 10, 1, 10⟩,
        cmd_pending := [(1, cmd0)] } : Channel).handle_command cmd0 = none := by
  decide

/-! ## Claim C3: 401 retry policy -/

/-- C3 (amended): on every 401 response for a pending command whose
challenge is usable, dispatch removes the command from the pending map,
installs the freshly built authorizer and appends the command to the retry
queue, emitting nothing on its sink; there is no retry counter, so this
happens identically however often the command was retried before.  When the
challenge is unusable the sink receives the mapped error (Unauthorized
exactly when no username is configured) and the channel continues. -/
theorem c3_unauthorized_retry_unbounded :
    (∀ (ch : Channel) (acc : Channel.RtspParseAcc) (cseq : Nat) (cmd : Command)
        (rest : List (Nat × Command)) (a : Authorizer),
      acc.cseq = some cseq →
      lookupRemove cseq ch.cmd_pending = some (cmd, rest) →
      acc.status = some Status.Unauthorized →
      Channel.create_authorizer ch.user ch.pass (acc.www_authenticate.map String.mk) = .ok a →
      ch.dispatchResponse acc =
        some ({ ch with
          cmd_pending := rest, authorizer := a,
          cmd_retry := ch.cmd_retry ++ [cmd] }, [], .ok ())) ∧
    (∀ (ch : Channel) (acc : Channel.RtspParseAcc) (cseq : Nat) (cmd : Command)
        (rest : List (Nat × Command)) (e : ChannelError),
      acc.cseq = some cseq →
      lookupRemove cseq ch.cmd_pending = some (cmd, rest) →
      acc.status = some Status.Unauthorized →
      Channel.create_authorizer ch.user ch.pass (acc.www_authenticate.map String.mk) = .err e →
      ch.dispatchResponse acc =
        some ({ ch with cmd_pending := rest }, [cmd.handle_error e.toCommandError], .ok ())) := by
  constructor
  · intro ch acc cseq cmd rest a hc hl hs ha
    unfold Channel.dispatchResponse
    rw [hc]
    dsimp only
    rw [hl]
    dsimp only
    rw [hs]
    dsimp only
    rw [if_pos rfl, ha]
  · intro ch acc cseq cmd rest e hc hl hs ha
    unfold Channel.dispatchResponse
    rw [hc]
    dsimp only
    rw [hl]
    dsimp only
    rw [hs]
    dsimp only
    rw [if_pos rfl, ha]

/-- C3 witness: the 401 dispatch applied to chA, moving its pending command
to the retry queue and installing the Basic authorizer. -/
theorem c3_witness :
    chA.dispatchResponse (accOf 1) = some (chB, [], .ok ()) :=
  c3_unauthorized_retry_unbounded.1 chA (accOf 1) 1 cmd0 [] (.basic ⟨"Basic dTpw"⟩)
    rfl (by decide) rfl (by decide)

/-- C3 counterexample: a command that already went through one 401 retry
(first 401 moves it to the retry queue, handle_retry_cmds re-serialises it
as pending CSeq 2) receives a second 401 with a usable challenge: it is
re-enqueued for retry once more with no sink event — in particular its sink
is not failed with Unauthorized — and the channel keeps running. -/
theorem c3_counterexample :
    chA.dispatchResponse (accOf 1) = some (chB, [], .ok ()) ∧
    chB.handle_retry_cmds = some chC ∧
    chC.cmd_pending = [(2, cmd0)] ∧
    chC.cmd_retry = [] ∧
    chC.dispatchResponse (accOf 2) =
      some ({ chC with cmd_pending := [], cmd_retry := [cmd0] }, [], .ok ()) ∧
    ({ chC with cmd_pending := [], cmd_retry := [cmd0] } : Channel).shutdown = false := by
  refine ⟨by decide, ?_, rfl, rfl, rfl, rfl⟩
  have hws := Buffer.get_write_slice_grow (Buffer.new (512 * 1024)) 4096
    (by decide) (by decide) (by decide)
  have hhc := Channel.handle_command_eq chB0 cmd0 _ 4096 hws (by decide)
  unfold Channel.handle_retry_cmds
  rw [show chB.cmd_retry = [cmd0] from rfl]
  unfold Channel.handle_retry_go
  rw [show ({ chB with cmd_retry := [] } : Channel) = chB0 from rfl, hhc]
  rfl

end RtspRs
